import Mathlib

/-!
Shallow embedding of the provider-fallback health chatbot
(`api/chat.js`, the health-processor module, the supabase helper and the
alternate handler) together with theorems about its classifier, provider
router, fallback responder, request handler and persistence layer.

Strings are modelled as Lean `String`s; JavaScript `toLowerCase`,
`includes`, truthiness of strings (`""` is falsy) and `a || b` are given
explicit counterparts below.  Thrown JavaScript errors are modelled with
`Except JsError`; network and database calls are modelled by oracle
values describing the outcome of the external collaborator.
-/

/-- Thrown JavaScript errors, as far as the model needs them. -/
inductive JsError : Type
  | referenceError (name : String)
  | thrown (message : String)
deriving DecidableEq, Repr

/-- JavaScript string truthiness: the empty string is falsy. -/
def jsTruthy (s : String) : Bool := s != ""

/-- Truthiness of a possibly-absent string value (`undefined`, `null` and
`""` are all falsy). -/
def jsTruthyOpt : Option String → Bool
  | none => false
  | some s => jsTruthy s

/-- JavaScript `a || b` on possibly-absent string values. -/
def jsOrStr (a b : Option String) : Option String :=
  if jsTruthyOpt a then a else b

/-- `String.prototype.toLowerCase`, restricted to the simple per-character
case mapping (identity on Devanagari, ASCII upper to lower), which agrees
with JavaScript on every string the program manipulates. -/
def jsToLower (s : String) : String := ⟨s.data.map Char.toLower⟩

/-- Containment of one character list in another, by scanning. -/
def listContains (needle : List Char) : List Char → Bool
  | [] => needle.isEmpty
  | c :: cs => needle.isPrefixOf (c :: cs) || listContains needle cs

/-- `String.prototype.includes`: substring containment. -/
def jsIncludes (hay needle : String) : Bool := listContains needle.data hay.data

/-- `String.prototype.trim`: strip leading and trailing whitespace. -/
def jsTrim (s : String) : String :=
  ⟨((s.data.dropWhile Char.isWhitespace).reverse.dropWhile Char.isWhitespace).reverse⟩

/-- JavaScript `try { body } catch (e) { handler(e) }` for a body modelled
in `Except JsError`. -/
def jsTryCatch {α : Type} (body : Except JsError α) (handler : JsError → α) : α :=
  match body with
  | .ok a => a
  | .error e => handler e

/-! ## Classifier (`validateHealthQuery` in the health-processor module) -/

/-- The health/education keyword list of `validateHealthQuery`. -/
def healthKeywords : List String :=
  ["स्वास्थ्य", "बीमारी", "दवा", "डॉक्टर", "इलाज", "बुखार", "दर्द", "सिरदर्द",
   "पेट", "खांसी", "जुकाम", "मधुमेह", "रक्तचाप", "हृदय", "दिल", "सांस", "गर्भावस्था",
   "बच्चे", "टीका", "वैक्सीन", "पोषण", "भोजन", "विटामिन", "कैल्शियम", "आयरन",
   "health", "disease", "medicine", "doctor", "treatment", "fever", "pain", "headache",
   "stomach", "cough", "cold", "diabetes", "pressure", "heart", "breathing", "pregnancy",
   "child", "vaccine", "nutrition", "food", "vitamin", "calcium", "iron",
   "शिक्षा", "पढ़ाई", "स्कूल", "कॉलेज", "विश्वविद्यालय", "परीक्षा", "किताब",
   "education", "study", "school", "college", "university", "exam", "book"]

/-- The off-topic keyword list of `validateHealthQuery`. -/
def nonHealthKeywords : List String :=
  ["movie", "film", "सिनेमा", "फिल्म", "गाना", "song", "music", "संगीत",
   "cricket", "football", "sports", "खेल", "politics", "राजनीति", "election",
   "weather", "मौसम", "joke", "comedy", "मजाक", "entertainment", "मनोरंजन"]

/-- The greeting list of `validateHealthQuery`. -/
def greetings : List String :=
  ["hello", "hi", "नमस्ते", "हैलो", "कैसे हैं", "how are you"]

/-- The redirect message returned by the classifier for off-topic queries. -/
def offTopicRedirectMessage : String :=
  "मैं एक स्वास्थ्य सहायक हूं और केवल स्वास्थ्य और शिक्षा संबंधी प्रश्नों का उत्तर देता हूं। 🏥\n\nकृपया अपनी स्वास्थ्य समस्या, बीमारी, दवाई, या शिक्षा के बारे में पूछें। मैं ग्रामीण क्षेत्रों के लोगों की मदद के लिए बनाया गया हूं।\n\n📝 आप पूछ सकते हैं:\n• बुखार, सर्दी-जुकाम का इलाज\n• मधुमेह, रक्तचाप की जानकारी\n• गर्भावस्था की देखभाल\n• बच्चों के टीकाकरण\n• पोषण और स्वस्थ भोजन\n• शिक्षा संबंधी सलाह"

/-- The redirect message returned by the classifier for long unclassified
queries. -/
def lengthRedirectMessage : String :=
  "कृपया स्वास्थ्य या शिक्षा से संबंधित प्रश्न पूछें। 🏥📚\n\nमैं ग्रामीण क्षेत्रों के लोगों के लिए स्वास्थ्य सहायक हूं। आप मुझसे बीमारियों, इलाज, दवाइयों, पोषण, या शिक्षा के बारे में पूछ सकते हैं।"

/-- `{isValid, redirectMessage?}` as produced by the classifier. -/
structure ValidationResult where
  isValid : Bool
  redirectMessage : Option String
deriving DecidableEq, Repr

/-- `validateHealthQuery(query)`: off-topic check first, then greeting
check, then the health-keyword/length rule. -/
def validateHealthQuery (query : String) : ValidationResult :=
  let queryLower := jsToLower query
  if nonHealthKeywords.any (fun keyword => jsIncludes queryLower keyword) then
    ⟨false, some offTopicRedirectMessage⟩
  else
    let hasHealthKeywords := healthKeywords.any (fun keyword => jsIncludes queryLower keyword)
    if greetings.any (fun greeting => jsIncludes queryLower greeting) then
      ⟨true, none⟩
    else if !hasHealthKeywords && queryLower.length > 10 then
      ⟨false, some lengthRedirectMessage⟩
    else
      ⟨true, none⟩

/-! ## Enhanced fallback responder (`getEnhancedFallbackResponse` in `api/chat.js`) -/

/-- One per-language table of canned answers in `api/chat.js`. -/
structure LangTable where
  fever : String
  headache : String
  cough : String
  stomach : String
  diabetes : String
  blood_pressure : String
  cold : String
  general : String
deriving DecidableEq, Repr

/-- `healthResponses.hindi` of `api/chat.js`. -/
def healthResponsesHindi : LangTable where
  fever := "बुखार के लिए: 1) पर्याप्त आराम करें 2) खूब पानी पिएं 3) हल्का भोजन लें। 102°F से ज्यादा बुखार हो या 3 दिन से ज्यादा रहे तो तुरंत डॉक्टर से मिलें।"
  headache := "सिरदर्द के लिए: 1) पर्याप्त पानी पिएं 2) आंखों को आराम दें 3) माथे पर ठंडी पट्टी रखें। लगातार या तेज दर्द हो तो डॉक्टर की सलाह लें।"
  cough := "खांसी के लिए: 1) गर्म पानी में नमक डालकर गरारे करें 2) शहद और अदरक का सेवन करें 3) धूम्रपान से बचें। 2 सप्ताह से ज्यादा खांसी हो तो डॉक्टर को दिखाएं।"
  stomach := "पेट दर्द के लिए: 1) हल्का भोजन करें 2) तली हुई चीजों से बचें 3) पर्याप्त पानी पिएं। तेज दर्द या उल्टी हो तो तुरंत डॉक्टर के पास जाएं।"
  diabetes := "मधुमेह के लिए: 1) नियमित व्यायाम करें 2) मीठा कम करें 3) समय पर दवा लें 4) नियमित जांच कराएं। डॉक्टर की सलाह जरूरी है।"
  blood_pressure := "उच्च रक्तचाप के लिए: 1) नमक कम करें 2) नियमित टहलें 3) तनाव कम करें 4) धूम्रपान छोड़ें। डॉक्टर से नियमित जांच कराएं।"
  cold := "सर्दी-जुकाम के लिए: 1) गर्म पानी पिएं 2) भाप लें 3) आराम करें 4) विटामिन C लें। लक्षण बढ़ने पर डॉक्टर से मिलें।"
  general := "स्वास्थ्य के लिए सामान्य सलाह: 1) संतुलित आहार लें 2) नियमित व्यायाम करें 3) पर्याप्त नींद लें 4) तनाव कम करें। किसी भी गंभीर समस्या के लिए डॉक्टर से सलाह लें।"

/-- `healthResponses.english` of `api/chat.js`. -/
def healthResponsesEnglish : LangTable where
  fever := "For fever: 1) Get adequate rest 2) Drink plenty of water 3) Eat light food. If fever exceeds 102°F or persists for more than 3 days, consult a doctor immediately."
  headache := "For headaches: 1) Drink sufficient water 2) Rest your eyes 3) Apply cold compress on forehead. For persistent or severe pain, consult a doctor."
  cough := "For cough: 1) Gargle with warm salt water 2) Take honey and ginger 3) Avoid smoking. If cough persists for more than 2 weeks, see a doctor."
  stomach := "For stomach pain: 1) Eat light food 2) Avoid fried items 3) Drink sufficient water. For severe pain or vomiting, see a doctor immediately."
  diabetes := "For diabetes: 1) Exercise regularly 2) Reduce sugar intake 3) Take medicines on time 4) Get regular checkups. Doctor's advice is essential."
  blood_pressure := "For high blood pressure: 1) Reduce salt 2) Walk regularly 3) Manage stress 4) Quit smoking. Regular checkups with doctor are important."
  cold := "For cold/flu: 1) Drink warm water 2) Take steam 3) Get rest 4) Take Vitamin C. If symptoms worsen, consult a doctor."
  general := "General health advice: 1) Eat balanced diet 2) Exercise regularly 3) Get adequate sleep 4) Manage stress. For any serious issues, consult a doctor."

/-- `healthResponses.hinglish` of `api/chat.js`. -/
def healthResponsesHinglish : LangTable where
  fever := "Fever के लिए: 1) Proper rest करें 2) पानी ज्यादा drink करें 3) Light food लें। 102°F से ज्यादा या 3 दिन से ज्यादा fever हो तो doctor को immediately दिखाएं।"
  headache := "Headache के लिए: 1) पानी ज्यादा पिएं 2) Eyes को rest दें 3) Forehead पर cold compress रखें। Continuous या severe pain हो तो doctor से मिलें।"
  cough := "Cough के लिए: 1) Warm salt water से gargle करें 2) Honey और ginger लें 3) Smoking avoid करें। 2 weeks से ज्यादा cough हो तो doctor को दिखाएं।"
  stomach := "Stomach pain के लिए: 1) Light food खाएं 2) Fried items avoid करें 3) पानी ज्यादा पिएं। Severe pain या vomiting हो तो doctor को immediately दिखाएं।"
  diabetes := "Diabetes के लिए: 1) Regular exercise करें 2) Sugar कम करें 3) Medicine time पर लें 4) Regular checkup कराएं। Doctor की advice जरूरी है।"
  blood_pressure := "High BP के लिए: 1) Salt कम करें 2) Daily walk करें 3) Stress manage करें 4) Smoking quit करें। Doctor से regular checkup कराएं।"
  cold := "Cold/flu के लिए: 1) Warm पानी पिएं 2) Steam लें 3) Rest करें 4) Vitamin C लें। Symptoms बढ़ें तो doctor को दिखाएं।"
  general := "Health के लिए general advice: 1) Balanced diet लें 2) Regular exercise करें 3) Proper sleep लें 4) Stress कम करें। कोई serious problem हो तो doctor से advice लें।"

/-- `healthResponses[language] || healthResponses.hinglish`: only the keys
`hindi`, `english`, `hinglish` exist, any other tag yields `undefined` and
hence the hinglish table. -/
def langResponsesFor (language : String) : LangTable :=
  if language = "hindi" then healthResponsesHindi
  else if language = "english" then healthResponsesEnglish
  else if language = "hinglish" then healthResponsesHinglish
  else healthResponsesHinglish

/-- `getEnhancedFallbackResponse(message, language)` of `api/chat.js`:
keyword scan over the lower-cased message, in source order, defaulting to
the per-language general advice. -/
def getEnhancedFallbackResponse (message language : String) : String :=
  let msg := jsToLower message
  let langResponses := langResponsesFor language
  if jsIncludes msg "fever" || jsIncludes msg "बुखार" || jsIncludes msg "तापमान" then
    langResponses.fever
  else if jsIncludes msg "headache" || jsIncludes msg "सिरदर्द" || jsIncludes msg "सिर में दर्द" then
    langResponses.headache
  else if jsIncludes msg "cough" || jsIncludes msg "खांसी" || jsIncludes msg "खाँसी" then
    langResponses.cough
  else if jsIncludes msg "stomach" || jsIncludes msg "पेट" || jsIncludes msg "pet dard" then
    langResponses.stomach
  else if jsIncludes msg "diabetes" || jsIncludes msg "मधुमेह" || jsIncludes msg "sugar" || jsIncludes msg "शुगर" then
    langResponses.diabetes
  else if jsIncludes msg "blood pressure" || jsIncludes msg "bp" || jsIncludes msg "रक्तचाप" || jsIncludes msg "हाई बीपी" then
    langResponses.blood_pressure
  else if jsIncludes msg "cold" || jsIncludes msg "flu" || jsIncludes msg "सर्दी" || jsIncludes msg "जुकाम" then
    langResponses.cold
  else
    langResponses.general

/-! ## Provider router (`processHealthQueryWithAI` in `api/chat.js`) -/

/-- The three remote providers, in the fixed priority order of the source. -/
inductive Provider : Type
  | gemini
  | huggingface
  | openai
deriving DecidableEq, Repr

/-- Provider credentials from the environment; `none` models an unset
variable, `some ""` an empty one (both falsy in the source's guard). -/
structure Env where
  geminiKey : Option String
  huggingfaceKey : Option String
  openaiKey : Option String
deriving DecidableEq, Repr

/-- The documented placeholder value for `GEMINI_API_KEY`. -/
def geminiPlaceholder : String := "your_gemini_api_key_here_free_tier_available"

/-- The documented placeholder value for `HUGGINGFACE_API_KEY`. -/
def huggingfacePlaceholder : String := "your_huggingface_token_here_free_tier_available"

/-- The documented placeholder value for `OPENAI_API_KEY`. -/
def openaiPlaceholder : String := "sk-your_openai_api_key_here_requires_5_dollar_billing"

/-- `process.env.X && process.env.X !== placeholder`: the credential is
configured when present, non-empty and different from its placeholder. -/
def keyConfigured (key : Option String) (placeholder : String) : Bool :=
  match key with
  | none => false
  | some s => jsTruthy s && s != placeholder

/-- Whether the Gemini credential gates its provider attempt open. -/
def geminiConfigured (env : Env) : Bool := keyConfigured env.geminiKey geminiPlaceholder

/-- Whether the Hugging Face credential gates its provider attempt open. -/
def huggingfaceConfigured (env : Env) : Bool :=
  keyConfigured env.huggingfaceKey huggingfacePlaceholder

/-- Whether the OpenAI credential gates its provider attempt open. -/
def openaiConfigured (env : Env) : Bool := keyConfigured env.openaiKey openaiPlaceholder

/-- Outcome of one outbound provider HTTP call: a returned text, or a
thrown error (non-2xx responses are re-thrown by the provider helpers). -/
inductive ProviderOutcome : Type
  | ok (text : String)
  | err
deriving DecidableEq, Repr

/-- The outcomes the three external providers would give if called. -/
structure ProviderOracle where
  gemini : ProviderOutcome
  huggingface : ProviderOutcome
  openai : ProviderOutcome
deriving DecidableEq, Repr

/-- A provider attempt counts as a success for the chain's control flow
when it returns without throwing and its text is truthy (the source's
`!response` guard treats an empty returned string like a failure). -/
def providerSucceeds : ProviderOutcome → Bool
  | .ok text => jsTruthy text
  | .err => false

/-- The local variables `response` and `aiProvider` of
`processHealthQueryWithAI`, plus the list of providers actually called. -/
structure RouterState where
  response : Option String
  aiProvider : String
  attempts : List Provider
deriving DecidableEq, Repr

/-- One `if (!response && configured) { try ... catch ... }` stage of the
chain: on success `response` and `aiProvider` are set, a thrown error
resets `response` to `null` and leaves `aiProvider` unchanged. -/
def tryStep (configured : Bool) (outcome : ProviderOutcome) (tag : String)
    (p : Provider) (st : RouterState) : RouterState :=
  if !jsTruthyOpt st.response && configured then
    match outcome with
    | .ok text => { response := some text, aiProvider := tag, attempts := st.attempts ++ [p] }
    | .err => { response := none, aiProvider := st.aiProvider, attempts := st.attempts ++ [p] }
  else st

/-- The `Response` object returned by the router, with the list of
provider calls it issued recorded alongside for the boundary theorems. -/
structure RouterResult where
  message : String
  confidence : ℚ
  language : String
  category : String
  provider : String
  attempts : List Provider
deriving DecidableEq, Repr

/-- The state of `processHealthQueryWithAI` after its three gated
provider stages, in the priority order Gemini, Hugging Face, OpenAI. -/
def routerProviderState (env : Env) (oracle : ProviderOracle) : RouterState :=
  tryStep (openaiConfigured env) oracle.openai "openai" .openai
    (tryStep (huggingfaceConfigured env) oracle.huggingface "huggingface" .huggingface
      (tryStep (geminiConfigured env) oracle.gemini "gemini" .gemini ⟨none, "fallback", []⟩))

/-- The state after the final `if (!response)` stage of
`processHealthQueryWithAI`: when `response` is still falsy, the enhanced
local fallback fills it in and tags the provider `enhanced_fallback`. -/
def routerFinalState (env : Env) (oracle : ProviderOracle)
    (message language : String) : RouterState :=
  if !jsTruthyOpt (routerProviderState env oracle).response then
    { routerProviderState env oracle with
      response := some (getEnhancedFallbackResponse message language)
      aiProvider := "enhanced_fallback" }
  else routerProviderState env oracle

/-- `processHealthQueryWithAI(message, language)` of `api/chat.js`: the
three gated provider stages in priority order, then the enhanced local
fallback when `response` is still falsy.  Every step of the body is total
(each provider call is wrapped in its own catch and the fallback is a pure
function), so the outer catch of the source — the `emergency_fallback`
path — is unreachable and the function is modelled as total. -/
def processHealthQueryWithAI (env : Env) (oracle : ProviderOracle)
    (message : String) (language : String) : RouterResult :=
  { message := (routerFinalState env oracle message language).response.getD ""
    confidence :=
      if (routerFinalState env oracle message language).aiProvider = "fallback" then 0.7 else 0.85
    language := language
    category := "health"
    provider := (routerFinalState env oracle message language).aiProvider
    attempts := (routerFinalState env oracle message language).attempts }

/-! ## Rural fallback responder (`generateRuralFallbackResponse` in the
health-processor module) -/

/-- The fever-specific canned answer of `ruralHealthResponses`. -/
def ruralFeverText : String :=
  "बुखार में:\n• पर्याप्त आराम करें\n• तरल पदार्थ पिएं (पानी, दाल का पानी)\n• गीली पट्टी माथे पर रखें\n• 3 दिन से ज्यादा बुखार हो तो डॉक्टर को दिखाएं\n• तुलसी और अदरक का काढ़ा पिएं"

/-- The ordered condition-keyword table `ruralHealthResponses`
(`Object.entries` preserves this insertion order). -/
def ruralHealthResponses : List (String × String) :=
  [("बुखार", ruralFeverText),
   ("दस्त", "दस्त का इलाज:\n• ORS का घोल पिएं (चीनी-नमक का पानी)\n• केला, दही, चावल खाएं\n• तली-भुनी चीजें न खाएं\n• साफ पानी पिएं\n• ज्यादा दस्त हो तो डॉक्टर से मिलें"),
   ("खांसी", "खांसी के लिए:\n• शहद और अदरक का मिश्रण लें\n• गर्म पानी से गरारे करें\n• तुलसी की चाय पिएं\n• धूम्रपान से बचें\n• 2 सप्ताह से ज्यादा खांसी हो तो डॉक्टर को दिखाएं"),
   ("मधुमेह", "मधुमेह (शुगर) में:\n• समय पर खाना खाएं\n• मिठाई कम खाएं\n• रोज टहलें\n• करेला, मेथी का सेवन करें\n• नियमित जांच कराएं\n• डॉक्टर की दवा समय पर लें"),
   ("गर्भावस्था", "गर्भावस्था में:\n• पौष्टिक भोजन लें (दाल, सब्जी, फल)\n• आयरन की गोली लें\n• नियमित जांच कराएं\n• भारी काम न करें\n• तंबाकू-शराब से बचें\n• ANM या डॉक्टर से सलाह लें"),
   ("टीका", "बच्चों के टीके:\n• जन्म के समय: BCG, OPV\n• 6 सप्ताह: DPT, OPV, Hepatitis B\n• सभी टीके समय पर लगवाएं\n• टीकाकरण कार्ड संभाल कर रखें\n• ANM से संपर्क करें")]

/-- The emergency-disclaimer suffix appended to every matched rural
response. -/
def emergencySuffix : String :=
  "\n\n⚠️ गंभीर समस्या में तुरंत डॉक्टर या स्वास्थ्य केंद्र जाएं।"

/-- The `defaultMessages` table of `generateRuralFallbackResponse`. -/
def ruralDefaultMessages : List (String × String) :=
  [("hindi", "ग्रामीण स्वास्थ्य सहायक 🏥\n\nमैं आपकी स्वास्थ्य संबंधी समस्याओं में मदद कर सकता हूं। कृपया बताएं:\n\n• आपको कौन सी समस्या है?\n• कितने दिन से है?\n• क्या लक्षण हैं?\n\n📞 आपातकाल में: 108 डायल करें\n🏥 नजदीकी स्वास्थ्य केंद्र या ANM से संपर्क करें\n\n⚠️ यह सलाह डॉक्टर की जगह नहीं है।"),
   ("english", "Rural Health Assistant 🏥\n\nI can help with your health concerns. Please tell me:\n\n• What problem do you have?\n• Since how many days?\n• What are the symptoms?\n\n📞 Emergency: Dial 108\n🏥 Contact nearest health center or ANM\n\n⚠️ This advice doesn't replace a doctor."),
   ("hinglish", "ग्रामीण स्वास्थ्य सहायक 🏥 / Rural Health Assistant\n\nमैं आपकी health problems में help कर सकता हूं। Please बताएं:\n\n• आपको कौन सी problem है?\n• कितने days से है?\n• क्या symptoms हैं?\n\n📞 Emergency में: 108 dial करें\n🏥 Nearest health center या ANM से contact करें\n\n⚠️ यह advice doctor की जगह नहीं है।")]

/-- `defaultMessages[language] || defaultMessages[\x7bhinglish\x7d]`-style
lookup: the hinglish variant is used for every unrecognized tag. -/
def ruralDefaultFor (language : String) : String :=
  match (ruralDefaultMessages.find? fun kv => kv.1 == language) with
  | some kv => kv.2
  | none =>
    match (ruralDefaultMessages.find? fun kv => kv.1 == "hinglish") with
    | some kv => kv.2
    | none => ""

/-- The response object the rural fallback builds. -/
structure FallbackResponse where
  message : String
  confidence : ℚ
  category : String
  language : String
deriving DecidableEq, Repr

/-- Reading the identifier `language` in the body of
`generateRuralFallbackResponse`: the binding parameter is the ambient
value of that identifier (`none` meaning it is not declared in scope, in
which case evaluation raises `ReferenceError`). -/
def readLanguageVar (binding : Option String) : Except JsError String :=
  match binding with
  | some s => .ok s
  | none => .error (.referenceError "language")

/-- The body of `generateRuralFallbackResponse(query)`, parametrised by the
ambient binding of the identifier `language`, which the body reads (in the
`language:` field of the matched-condition result and in the
`defaultMessages[language]` lookup) although the function declares no such
parameter. -/
def generateRuralFallbackResponseBody (languageBinding : Option String)
    (query : String) : Except JsError FallbackResponse :=
  let queryLower := jsToLower query
  match (ruralHealthResponses.find? fun kv => jsIncludes queryLower kv.1) with
  | some kv => do
      let language ← readLanguageVar languageBinding
      return ⟨kv.2 ++ emergencySuffix, 0.70, "health", language⟩
  | none => do
      let language ← readLanguageVar languageBinding
      return ⟨ruralDefaultFor language, 0.60, "health", language⟩

/-- `generateRuralFallbackResponse(query)` exactly as declared in the
source: the module scope carries no binding for `language`, so the body
runs with that identifier unbound. -/
def generateRuralFallbackResponse (query : String) : Except JsError FallbackResponse :=
  generateRuralFallbackResponseBody none query

/-- Modelled from the spec: the rural fallback as §4.2 describes it and as
every call site expects it (`generateRuralFallbackResponse(query,
detectedLanguage)`), i.e. the same body run with `language` bound to the
caller's language tag. -/
def generateRuralFallbackResponseIntended (query language : String) :
    Except JsError FallbackResponse :=
  generateRuralFallbackResponseBody (some language) query

/-! ## Localized redirect and `processHealthQuery` (health-processor module) -/

/-- The `redirectMessages` table of `getLocalizedRedirectMessage`. -/
def localizedRedirectMessages : List (String × String) :=
  [("hindi", "माफ़ कीजिए, मैं केवल स्वास्थ्य संबंधी प्रश्नों का उत्तर दे सकता हूँ। 🏥\n\nकृपया कोई स्वास्थ्य संबंधी समस्या या बीमारी के बारे में पूछें।"),
   ("english", "Sorry, I can only answer health-related questions. 🏥\n\nPlease ask about any health problem or medical condition."),
   ("hinglish", "माफ़ कीजिए, मैं केवल health related questions का answer दे सकता हूँ। 🏥\n\nPlease कोई health problem या medical condition के बारे में पूछें।")]

/-- `getLocalizedRedirectMessage(language)`: table lookup with the
hinglish variant for unrecognized tags. -/
def getLocalizedRedirectMessage (language : String) : String :=
  match (localizedRedirectMessages.find? fun kv => kv.1 == language) with
  | some kv => kv.2
  | none =>
    match (localizedRedirectMessages.find? fun kv => kv.1 == "hinglish") with
    | some kv => kv.2
    | none => ""

/-- Outcome of the outbound call to the Python backend. -/
inductive BackendOutcome : Type
  | ok (message : String) (confidence : Option ℚ)
  | httpError
  | exn
deriving DecidableEq, Repr

/-- The result object built by `processHealthQuery`. -/
structure ProcessResult where
  message : String
  confidence : ℚ
  category : String
  language : Option String
deriving DecidableEq, Repr

/-- `processHealthQuery(query, isVoiceInput, detectedLanguage)` of the
health-processor module, paired with whether the backend call was issued.
On classifier rejection it returns the localized redirect without calling
the backend; on a backend failure its catch clause calls
`generateRuralFallbackResponse(query, detectedLanguage)` — whose body then
raises `ReferenceError` (see `generateRuralFallbackResponse`), and a throw
inside a catch clause propagates to the caller. -/
def processHealthQuery (query : String) (detectedLanguage : String)
    (backend : BackendOutcome) : Except JsError ProcessResult × Bool :=
  let queryValidation := validateHealthQuery query
  if queryValidation.isValid = false then
    (.ok ⟨getLocalizedRedirectMessage detectedLanguage, 0.95, "redirect", none⟩, false)
  else
    match backend with
    | .ok message confidence =>
        (.ok ⟨message, confidence.getD 0.75, "health", some detectedLanguage⟩, true)
    | .httpError =>
        ((generateRuralFallbackResponse query).map
          fun r => ⟨r.message, r.confidence, r.category, some r.language⟩, true)
    | .exn =>
        ((generateRuralFallbackResponse query).map
          fun r => ⟨r.message, r.confidence, r.category, some r.language⟩, true)

/-! ## Persistence helper (`storeChatMessage` in the supabase module) -/

/-- One row handed to the database insert interface. -/
structure ChatRow where
  userId : String
  message : String
  messageType : String
  isVoiceInput : Bool
  isVoiceOutput : Bool
  queryCategory : String
  responseConfidence : ℚ
deriving DecidableEq, Repr

/-- Outcome of one `supabase.from(...).insert(...)` round trip: a stored
row, an error object in the result, or a thrown exception. -/
inductive DbInsertResult : Type
  | success
  | dbError
  | exn
deriving DecidableEq, Repr

/-- The raw insert call: `{data, error}` on completion, a thrown error
otherwise. -/
def supabaseInsert (outcome : DbInsertResult) (row : ChatRow) :
    Except JsError (Option ChatRow × Option String) :=
  match outcome with
  | .success => .ok (some row, none)
  | .dbError => .ok (none, some "insert failed")
  | .exn => .error (.thrown "Database storage error")

/-- `storeChatMessage(userId, message, messageType, options)`: returns
`null` when supabase is not configured, logs-and-returns-`null` when the
insert reports an error, and catches any thrown exception, also returning
`null` — it never throws. -/
def storeChatMessage (supabaseAvailable : Bool) (outcome : DbInsertResult)
    (userId message messageType : String) (isVoiceInput isVoiceOutput : Bool)
    (category : String) (confidence : ℚ) : Option ChatRow :=
  if supabaseAvailable = false then none
  else
    jsTryCatch
      (do
        let (data, error) ← supabaseInsert outcome
          ⟨userId, message, messageType, isVoiceInput, isVoiceOutput, category, confidence⟩
        if error.isSome then return none
        return data)
      (fun _ => none)

/-! ## Request handler (`handler` in `api/chat.js`) -/

/-- The fields of the incoming HTTP request the handler reads.  `none`
models an absent JSON field, for which the destructuring defaults of the
source apply. -/
structure Request where
  method : String
  query : Option String
  message : Option String
  isVoiceInput : Bool
  requestVoiceResponse : Bool
  detectedLanguage : Option String
  userId : Option String
deriving DecidableEq, Repr

/-- Externally visible side effects of one request, in issue order. -/
inductive Event : Type
  | dbWrite (messageType : String) (content : String)
  | providerCall (p : Provider)
deriving DecidableEq, Repr

/-- The JSON body the handler sends. -/
inductive HttpBody : Type
  | empty
  | jsonError (error : String)
  | jsonSuccess (message : String) (confidence : ℚ) (language : String) (category : String)
deriving DecidableEq, Repr

/-- Status, body and side-effect trace of one handled request. -/
structure HandlerResult where
  status : Nat
  body : HttpBody
  events : List Event
deriving DecidableEq, Repr

/-- `response.confidence || 0.75` on a number: `0` is falsy. -/
def jsOrNum (a dflt : ℚ) : ℚ := if a = 0 then dflt else a

/-- `handler(req, res)` of `api/chat.js`: CORS preflight, method check,
`query || message` extraction with the emptiness guard, the user-turn
store, the provider router, the bot-turn store and the 200 response.
Every modelled step of the `try` body is total (`storeChatMessage` never
throws and the router is a total function), so the top-level catch — the
500 response — is unreachable in the model. -/
def handler (env : Env) (oracle : ProviderOracle) (supabaseAvailable : Bool)
    (dbUser dbBot : DbInsertResult) (req : Request) : HandlerResult :=
  if req.method = "OPTIONS" then ⟨200, .empty, []⟩
  else if req.method ≠ "POST" then ⟨405, .jsonError "Method not allowed", []⟩
  else
    let userMessage := jsOrStr req.query req.message
    let userMessageOk :=
      match userMessage with
      | none => false
      | some s => jsTruthy s && (jsTrim s != "")
    match userMessage, userMessageOk with
    | _, false => ⟨400, .jsonError "Query is required", []⟩
    | none, true => ⟨400, .jsonError "Query is required", []⟩
    | some m, true =>
      let detectedLanguage := req.detectedLanguage.getD "hinglish"
      let userId := req.userId.getD "anonymous"
      let _userRow := storeChatMessage supabaseAvailable dbUser userId m "user"
        req.isVoiceInput false "health" 0.50
      let response := processHealthQueryWithAI env oracle m detectedLanguage
      let _botRow := storeChatMessage supabaseAvailable dbBot userId response.message "bot"
        false req.requestVoiceResponse "health" (jsOrNum response.confidence 0.75)
      { status := 200
        body := .jsonSuccess response.message (jsOrNum response.confidence 0.75)
          response.language "health"
        events := Event.dbWrite "user" m ::
          (response.attempts.map Event.providerCall ++ [Event.dbWrite "bot" response.message]) }

/-! ## Helper lemmas -/

theorem jsTruthyOpt_getD_ne (o : Option String) (h : jsTruthyOpt o = true) :
    o.getD "" ≠ "" := by
  cases o with
  | none => simp [jsTruthyOpt] at h
  | some s =>
      simp [jsTruthyOpt, jsTruthy] at h
      simpa using h

theorem langResponsesFor_mem (language : String) :
    langResponsesFor language = healthResponsesHindi ∨
    langResponsesFor language = healthResponsesEnglish ∨
    langResponsesFor language = healthResponsesHinglish := by
  unfold langResponsesFor
  split_ifs <;> simp

theorem langTable_fields_ne_empty (t : LangTable)
    (ht : t = healthResponsesHindi ∨ t = healthResponsesEnglish ∨ t = healthResponsesHinglish) :
    t.fever ≠ "" ∧ t.headache ≠ "" ∧ t.cough ≠ "" ∧ t.stomach ≠ "" ∧
    t.diabetes ≠ "" ∧ t.blood_pressure ≠ "" ∧ t.cold ≠ "" ∧ t.general ≠ "" := by
  rcases ht with h | h | h <;> subst h <;>
    refine ⟨?_, ?_, ?_, ?_, ?_, ?_, ?_, ?_⟩ <;> decide

theorem getEnhancedFallbackResponse_ne_empty (message language : String) :
    getEnhancedFallbackResponse message language ≠ "" := by
  obtain ⟨h1, h2, h3, h4, h5, h6, h7, h8⟩ :=
    langTable_fields_ne_empty (langResponsesFor language) (langResponsesFor_mem language)
  simp only [getEnhancedFallbackResponse]
  split_ifs <;> assumption

theorem tryStep_attempts (c : Bool) (o : ProviderOutcome) (tag : String) (p : Provider)
    (st : RouterState) :
    (tryStep c o tag p st).attempts =
      st.attempts ++ (if (!jsTruthyOpt st.response && c) = true then [p] else []) := by
  cases o <;> simp only [tryStep] <;> split <;> simp_all

theorem tryStep_truthy (c : Bool) (o : ProviderOutcome) (tag : String) (p : Provider)
    (st : RouterState) :
    jsTruthyOpt (tryStep c o tag p st).response =
      (jsTruthyOpt st.response || (c && providerSucceeds o)) := by
  by_cases hc : (!jsTruthyOpt st.response && c) = true
  · obtain ⟨hnt, hcc⟩ := Bool.and_eq_true_iff.mp hc
    have hst : jsTruthyOpt st.response = false := by
      cases hx : jsTruthyOpt st.response <;> simp_all
    cases o with
    | ok t =>
        simp only [tryStep, hc, if_true]
        rw [hst, hcc]
        simp [jsTruthyOpt, providerSucceeds]
    | err =>
        simp only [tryStep, hc, if_true]
        rw [hst, hcc]
        simp [jsTruthyOpt, providerSucceeds]
  · have hsplit : jsTruthyOpt st.response = true ∨ c = false := by
      cases hx : jsTruthyOpt st.response <;> cases hcx : c <;> simp_all
    cases o <;> simp only [tryStep] <;> rw [if_neg hc] <;>
      rcases hsplit with h | h <;> simp [h, providerSucceeds]

theorem tryStep_tag_of_truthy (c : Bool) (o : ProviderOutcome) (tag : String) (p : Provider)
    (st : RouterState) (h : jsTruthyOpt (tryStep c o tag p st).response = true) :
    (tryStep c o tag p st).aiProvider = tag ∨
      (jsTruthyOpt st.response = true ∧ (tryStep c o tag p st).aiProvider = st.aiProvider) := by
  by_cases hc : (!jsTruthyOpt st.response && c) = true
  · cases o with
    | ok t =>
        simp only [tryStep, hc, if_true]
        simp
    | err =>
        simp only [tryStep, hc, if_true] at h
        simp [jsTruthyOpt] at h
  · simp only [tryStep] at h ⊢
    rw [if_neg hc] at h ⊢
    exact Or.inr ⟨h, rfl⟩

/-- The provider-attempt list the specified routing policy dictates: the
fixed priority order Gemini, Hugging Face, OpenAI; a provider runs only
when its credential is configured; and a provider runs only when no
earlier configured provider succeeded (a thrown or empty attempt lets the
next configured provider run). -/
def routerAttemptsSpec (env : Env) (oracle : ProviderOracle) : List Provider :=
  (if geminiConfigured env then [Provider.gemini] else []) ++
    ((if huggingfaceConfigured env && !(geminiConfigured env && providerSucceeds oracle.gemini)
        then [Provider.huggingface] else []) ++
      (if openaiConfigured env && !(geminiConfigured env && providerSucceeds oracle.gemini) &&
           !(huggingfaceConfigured env && providerSucceeds oracle.huggingface)
        then [Provider.openai] else []))

theorem routerProviderState_attempts (env : Env) (oracle : ProviderOracle) :
    (routerProviderState env oracle).attempts = routerAttemptsSpec env oracle := by
  unfold routerProviderState routerAttemptsSpec
  simp only [tryStep_attempts, tryStep_truthy]
  cases hg : geminiConfigured env <;>
    cases hh : huggingfaceConfigured env <;>
      cases ho : openaiConfigured env <;>
        cases hsg : providerSucceeds oracle.gemini <;>
          cases hsh : providerSucceeds oracle.huggingface <;>
            simp [jsTruthyOpt]

theorem routerProviderState_tag_of_truthy (env : Env) (oracle : ProviderOracle)
    (h : jsTruthyOpt (routerProviderState env oracle).response = true) :
    (routerProviderState env oracle).aiProvider = "gemini" ∨
    (routerProviderState env oracle).aiProvider = "huggingface" ∨
    (routerProviderState env oracle).aiProvider = "openai" := by
  unfold routerProviderState at h ⊢
  rcases tryStep_tag_of_truthy _ _ _ _ _ h with h3 | ⟨h2t, h3⟩
  · exact Or.inr (Or.inr h3)
  · rcases tryStep_tag_of_truthy _ _ _ _ _ h2t with h2 | ⟨h1t, h2⟩
    · rw [h3, h2]
      exact Or.inr (Or.inl rfl)
    · rcases tryStep_tag_of_truthy _ _ _ _ _ h1t with h1 | ⟨h0t, h1⟩
      · rw [h3, h2, h1]
        exact Or.inl rfl
      · simp [jsTruthyOpt] at h0t

theorem routerFinalState_truthy (env : Env) (oracle : ProviderOracle)
    (message language : String) :
    jsTruthyOpt (routerFinalState env oracle message language).response = true := by
  unfold routerFinalState
  by_cases h : jsTruthyOpt (routerProviderState env oracle).response = true
  · simp [h]
  · have h0 : jsTruthyOpt (routerProviderState env oracle).response = false := by
      cases hx : jsTruthyOpt (routerProviderState env oracle).response <;> simp_all
    rw [h0]
    simp [jsTruthyOpt, jsTruthy, getEnhancedFallbackResponse_ne_empty]

theorem routerFinalState_attempts (env : Env) (oracle : ProviderOracle)
    (message language : String) :
    (routerFinalState env oracle message language).attempts =
      (routerProviderState env oracle).attempts := by
  unfold routerFinalState
  split <;> rfl

theorem routerFinalState_tag_mem (env : Env) (oracle : ProviderOracle)
    (message language : String) :
    (routerFinalState env oracle message language).aiProvider ∈
      ["gemini", "huggingface", "openai", "enhanced_fallback"] := by
  by_cases h : jsTruthyOpt (routerProviderState env oracle).response = true
  · have hmem := routerProviderState_tag_of_truthy env oracle h
    unfold routerFinalState
    simp only [h, Bool.not_true, Bool.false_eq_true, if_false]
    rcases hmem with h1 | h1 | h1 <;> simp [h1]
  · have h0 : jsTruthyOpt (routerProviderState env oracle).response = false := by
      cases hx : jsTruthyOpt (routerProviderState env oracle).response <;> simp_all
    unfold routerFinalState
    simp [h0]

/-! ## Claim theorems for the router -/

/-- C3: for every environment, provider-outcome oracle, query and language
tag, the Provider Router produces exactly one well-defined `Response`
whose message is non-empty and whose provider tag names one of its four
stages, and the Fallback Responder it delegates to on provider exhaustion
(`getEnhancedFallbackResponse`) is a total function with a non-empty
answer on every input — so the terminal state is always reached and no
failure escapes to the caller. -/
theorem router_always_returns_one_response (env : Env) (oracle : ProviderOracle)
    (message language : String) :
    (processHealthQueryWithAI env oracle message language).message ≠ "" ∧
    (processHealthQueryWithAI env oracle message language).provider ∈
      ["gemini", "huggingface", "openai", "enhanced_fallback"] ∧
    getEnhancedFallbackResponse message language ≠ "" := by
  refine ⟨?_, ?_, getEnhancedFallbackResponse_ne_empty message language⟩
  · exact jsTruthyOpt_getD_ne _ (routerFinalState_truthy env oracle message language)
  · exact routerFinalState_tag_mem env oracle message language

/-- C4: the providers the Router attempts are exactly the fixed-priority,
credential-gated, short-circuiting sequence: Gemini, then Hugging Face,
then OpenAI, each attempted only when its credential is present and
different from its placeholder and no earlier configured attempt
succeeded; a thrown earlier call lets the next configured provider run,
and the first success short-circuits the rest. -/
theorem router_priority_order_and_gating (env : Env) (oracle : ProviderOracle)
    (message language : String) :
    (processHealthQueryWithAI env oracle message language).attempts =
      routerAttemptsSpec env oracle := by
  show (routerFinalState env oracle message language).attempts = _
  rw [routerFinalState_attempts, routerProviderState_attempts]

/-- C2: evaluating the Router with every provider credential absent shows
the bug: the answer is produced by the local fallback
(`provider = enhanced_fallback`), yet its confidence is the provider-tier
constant 0.85, outside the claimed local-fallback range [0.60, 0.70] (the
source compares `aiProvider` with the tag `fallback`, which is never the
final tag — the fallback branch sets `enhanced_fallback`). -/
theorem fallback_confidence_is_provider_tier :
    (processHealthQueryWithAI ⟨none, none, none⟩ ⟨.err, .err, .err⟩
        "मुझे बुखार है" "hinglish").provider = "enhanced_fallback" ∧
    (processHealthQueryWithAI ⟨none, none, none⟩ ⟨.err, .err, .err⟩
        "मुझे बुखार है" "hinglish").confidence = 0.85 ∧
    ¬ ((0.60 : ℚ) ≤ (processHealthQueryWithAI ⟨none, none, none⟩ ⟨.err, .err, .err⟩
        "मुझे बुखार है" "hinglish").confidence ∧
       (processHealthQueryWithAI ⟨none, none, none⟩ ⟨.err, .err, .err⟩
        "मुझे बुखार है" "hinglish").confidence ≤ 0.70) := by
  have h : (processHealthQueryWithAI ⟨none, none, none⟩ ⟨.err, .err, .err⟩
      "मुझे बुखार है" "hinglish").confidence = 0.85 := rfl
  refine ⟨rfl, h, ?_⟩
  rw [h]
  norm_num

/-! ## Claim theorems for the classifier -/

/-- C5: every query whose lower-cased text contains an off-topic keyword
is rejected by the classifier with the off-topic redirect message — the
off-topic check runs before the health-keyword check, so co-occurring
health keywords cannot rescue the query. -/
theorem offtopic_keyword_rejects (query : String)
    (h : nonHealthKeywords.any (fun keyword => jsIncludes (jsToLower query) keyword) = true) :
    validateHealthQuery query = ⟨false, some offTopicRedirectMessage⟩ := by
  simp [validateHealthQuery, h]

/-- Witness for C5: a query containing both the off-topic keyword `movie`
and the health keyword `fever` is still rejected with the off-topic
redirect. -/
theorem offtopic_keyword_rejects_witness :
    (nonHealthKeywords.any (fun keyword =>
        jsIncludes (jsToLower "Is this movie about fever") keyword) = true) ∧
    validateHealthQuery "Is this movie about fever" = ⟨false, some offTopicRedirectMessage⟩ :=
  ⟨by decide, offtopic_keyword_rejects "Is this movie about fever" (by decide)⟩

/-- C6: a query containing no off-topic, health or greeting keyword is
accepted when its text length is at most 10 characters and rejected with
the second canned redirect message when its length exceeds 10. -/
theorem unmatched_query_length_rule (query : String)
    (hOff : nonHealthKeywords.any (fun keyword => jsIncludes (jsToLower query) keyword) = false)
    (hHealth : healthKeywords.any (fun keyword => jsIncludes (jsToLower query) keyword) = false)
    (hGreet : greetings.any (fun greeting => jsIncludes (jsToLower query) greeting) = false) :
    (query.length ≤ 10 → validateHealthQuery query = ⟨true, none⟩) ∧
    (10 < query.length → validateHealthQuery query = ⟨false, some lengthRedirectMessage⟩) := by
  have hlen : (jsToLower query).length = query.length := by
    show (query.data.map Char.toLower).length = query.data.length
    exact List.length_map _ _
  constructor
  · intro h
    have hnot : ¬ (10 < query.length) := by omega
    simp [validateHealthQuery, hOff, hGreet, hHealth, hlen, hnot]
  · intro h
    simp [validateHealthQuery, hOff, hGreet, hHealth, hlen, h]

/-- Witness for C6: "zzz" (3 characters, no keyword) is accepted;
"zzzzzzzzzzzz" (12 characters, no keyword) is rejected with the second
redirect message. -/
theorem unmatched_query_length_rule_witness :
    validateHealthQuery "zzz" = ⟨true, none⟩ ∧
    validateHealthQuery "zzzzzzzzzzzz" = ⟨false, some lengthRedirectMessage⟩ :=
  ⟨(unmatched_query_length_rule "zzz" (by decide) (by decide) (by decide)).1 (by decide),
   (unmatched_query_length_rule "zzzzzzzzzzzz" (by decide) (by decide) (by decide)).2 (by decide)⟩

/-- C10: every query with no off-topic keyword whose lower-cased text
contains the two-character substring `hi` anywhere is accepted by the
classifier, regardless of length and with no health keyword required,
because greeting detection is substring containment of the greeting list
(whose second entry is `hi`), not whole-word matching. -/
theorem hi_substring_accepts (query : String)
    (hOff : nonHealthKeywords.any (fun keyword => jsIncludes (jsToLower query) keyword) = false)
    (hHi : jsIncludes (jsToLower query) "hi" = true) :
    validateHealthQuery query = ⟨true, none⟩ := by
  have hGreet : greetings.any (fun greeting => jsIncludes (jsToLower query) greeting) = true := by
    simp [greetings, hHi]
  simp [validateHealthQuery, hOff, hGreet]

/-- Witness for C10: "machine learning is fascinating" (31 characters, no
health keyword, no off-topic keyword) is accepted because `machine`
contains the substring `hi`. -/
theorem hi_substring_accepts_witness :
    (jsIncludes (jsToLower "machine learning is fascinating") "hi" = true) ∧
    validateHealthQuery "machine learning is fascinating" = ⟨true, none⟩ :=
  ⟨by decide, hi_substring_accepts "machine learning is fascinating" (by decide) (by decide)⟩

/-! ## Claim theorems for the request handler and persistence -/

theorem handler_valid_eq (env : Env) (oracle : ProviderOracle) (supabaseAvailable : Bool)
    (dbUser dbBot : DbInsertResult) (req : Request) (m : String)
    (hm : req.method = "POST")
    (hq : jsOrStr req.query req.message = some m)
    (ht : jsTruthy m = true) (htrim : (jsTrim m != "") = true) :
    handler env oracle supabaseAvailable dbUser dbBot req =
      { status := 200
        body := .jsonSuccess
            (processHealthQueryWithAI env oracle m (req.detectedLanguage.getD "hinglish")).message
            (jsOrNum (processHealthQueryWithAI env oracle m
              (req.detectedLanguage.getD "hinglish")).confidence 0.75)
            (processHealthQueryWithAI env oracle m (req.detectedLanguage.getD "hinglish")).language
            "health"
        events := Event.dbWrite "user" m ::
          ((processHealthQueryWithAI env oracle m
              (req.detectedLanguage.getD "hinglish")).attempts.map Event.providerCall ++
            [Event.dbWrite "bot"
              (processHealthQueryWithAI env oracle m
                (req.detectedLanguage.getD "hinglish")).message]) } := by
  simp [handler, hm, hq, ht, htrim]

/-- C8: the handler answers every OPTIONS request with status 200, every
non-POST non-OPTIONS request with status 405, and every POST request
whose query and message fields are both missing, empty or
whitespace-only with status 400 and the body error `Query is required`. -/
theorem handler_http_boundary (env : Env) (oracle : ProviderOracle)
    (supabaseAvailable : Bool) (dbUser dbBot : DbInsertResult) (req : Request) :
    (req.method = "OPTIONS" →
      handler env oracle supabaseAvailable dbUser dbBot req = ⟨200, .empty, []⟩) ∧
    (req.method ≠ "OPTIONS" → req.method ≠ "POST" →
      handler env oracle supabaseAvailable dbUser dbBot req =
        ⟨405, .jsonError "Method not allowed", []⟩) ∧
    (req.method = "POST" → jsTrim (req.query.getD "") = "" → jsTrim (req.message.getD "") = "" →
      handler env oracle supabaseAvailable dbUser dbBot req =
        ⟨400, .jsonError "Query is required", []⟩) := by
  refine ⟨?_, ?_, ?_⟩
  · intro h
    simp [handler, h]
  · intro h1 h2
    simp [handler, h1, h2]
  · intro h1 hq hmsg
    rcases hcq : req.query with _ | s <;> rcases hcm : req.message with _ | t <;>
      rw [hcq] at hq <;> rw [hcm] at hmsg <;> simp only [Option.getD] at hq hmsg
    · simp [handler, h1, hcq, hcm, jsOrStr, jsTruthyOpt]
    · simp [handler, h1, hcq, hcm, jsOrStr, jsTruthyOpt, hmsg]
    · cases hts : jsTruthy s
      · simp [handler, h1, hcq, hcm, jsOrStr, jsTruthyOpt, hts]
      · simp [handler, h1, hcq, hcm, jsOrStr, jsTruthyOpt, hts, hq]
    · cases hts : jsTruthy s
      · simp [handler, h1, hcq, hcm, jsOrStr, jsTruthyOpt, hts, hmsg]
      · simp [handler, h1, hcq, hcm, jsOrStr, jsTruthyOpt, hts, hq]

/-- Witness for C8: an OPTIONS request gets 200, a GET request gets 405,
and a POST request with empty query and whitespace-only message gets 400
with the `Query is required` body. -/
theorem handler_http_boundary_witness :
    handler ⟨none, none, none⟩ ⟨.err, .err, .err⟩ false .success .success
        ⟨"OPTIONS", none, none, false, false, none, none⟩ = ⟨200, .empty, []⟩ ∧
    handler ⟨none, none, none⟩ ⟨.err, .err, .err⟩ false .success .success
        ⟨"GET", none, none, false, false, none, none⟩ =
      ⟨405, .jsonError "Method not allowed", []⟩ ∧
    handler ⟨none, none, none⟩ ⟨.err, .err, .err⟩ false .success .success
        ⟨"POST", some "", some "   ", false, false, none, none⟩ =
      ⟨400, .jsonError "Query is required", []⟩ :=
  ⟨(handler_http_boundary ⟨none, none, none⟩ ⟨.err, .err, .err⟩ false .success .success
      ⟨"OPTIONS", none, none, false, false, none, none⟩).1 rfl,
   (handler_http_boundary ⟨none, none, none⟩ ⟨.err, .err, .err⟩ false .success .success
      ⟨"GET", none, none, false, false, none, none⟩).2.1 (by decide) (by decide),
   (handler_http_boundary ⟨none, none, none⟩ ⟨.err, .err, .err⟩ false .success .success
      ⟨"POST", some "", some "   ", false, false, none, none⟩).2.2 rfl (by decide) (by decide)⟩

/-- C1 (amended): the live HTTP handler never runs the Classifier — for
every POST request with a non-empty query it invokes the Provider Router
directly, so the trace always contains the Router's provider attempts and
the 200 body carries the Router's answer, whatever the query's topic; the
Classifier gate exists only in `processHealthQuery`, a pipeline the
handler does not call, which on Classifier rejection returns the
localized redirect message with confidence 0.95 and no backend call. -/
theorem handler_routes_without_classifier (env : Env) (oracle : ProviderOracle)
    (supabaseAvailable : Bool) (dbUser dbBot : DbInsertResult) (req : Request) (m : String)
    (hm : req.method = "POST") (hq : jsOrStr req.query req.message = some m)
    (ht : jsTruthy m = true) (htrim : (jsTrim m != "") = true)
    (query detectedLanguage : String) (backend : BackendOutcome)
    (hinvalid : (validateHealthQuery query).isValid = false) :
    ((handler env oracle supabaseAvailable dbUser dbBot req).status = 200 ∧
     (handler env oracle supabaseAvailable dbUser dbBot req).events =
       Event.dbWrite "user" m ::
         ((processHealthQueryWithAI env oracle m
             (req.detectedLanguage.getD "hinglish")).attempts.map Event.providerCall ++
           [Event.dbWrite "bot"
             (processHealthQueryWithAI env oracle m
               (req.detectedLanguage.getD "hinglish")).message])) ∧
    processHealthQuery query detectedLanguage backend =
      (.ok ⟨getLocalizedRedirectMessage detectedLanguage, 0.95, "redirect", none⟩, false) := by
  constructor
  · rw [handler_valid_eq env oracle supabaseAvailable dbUser dbBot req m hm hq ht htrim]
    exact ⟨rfl, rfl⟩
  · simp only [processHealthQuery]
    rw [if_pos hinvalid]

/-- Witness for C1: the query "Tell me about movies" is rejected by the
Classifier, yet the handler still routes it (here: straight to the
enhanced fallback, no provider configured), while `processHealthQuery`
would have returned the localized redirect without a backend call. -/
theorem handler_routes_without_classifier_witness :
    ((handler ⟨none, none, none⟩ ⟨.err, .err, .err⟩ false .success .success
        ⟨"POST", some "Tell me about movies", none, false, false, none, none⟩).status = 200 ∧
     (handler ⟨none, none, none⟩ ⟨.err, .err, .err⟩ false .success .success
        ⟨"POST", some "Tell me about movies", none, false, false, none, none⟩).events =
       Event.dbWrite "user" "Tell me about movies" ::
         ((processHealthQueryWithAI ⟨none, none, none⟩ ⟨.err, .err, .err⟩
             "Tell me about movies" "hinglish").attempts.map Event.providerCall ++
           [Event.dbWrite "bot"
             (processHealthQueryWithAI ⟨none, none, none⟩ ⟨.err, .err, .err⟩
               "Tell me about movies" "hinglish").message])) ∧
    processHealthQuery "Tell me about movies" "hinglish" BackendOutcome.exn =
      (.ok ⟨getLocalizedRedirectMessage "hinglish", 0.95, "redirect", none⟩, false) :=
  handler_routes_without_classifier ⟨none, none, none⟩ ⟨.err, .err, .err⟩ false .success .success
    ⟨"POST", some "Tell me about movies", none, false, false, none, none⟩ "Tell me about movies"
    rfl (by decide) (by decide) (by decide) "Tell me about movies" "hinglish" .exn (by decide)

/-- Counterexample for C1 as stated: with a Gemini credential configured,
`POST` of `Tell me about movies` leads the handler to attempt a provider
call and to answer 200 with the provider's text — not the off-topic
redirect text, and not without a provider call. -/
theorem handler_movie_query_counterexample :
    (handler ⟨some "k", none, none⟩ ⟨.ok "MOVIE_CHAT", .err, .err⟩ false .success .success
        ⟨"POST", some "Tell me about movies", none, false, false, none, none⟩).status = 200 ∧
    (handler ⟨some "k", none, none⟩ ⟨.ok "MOVIE_CHAT", .err, .err⟩ false .success .success
        ⟨"POST", some "Tell me about movies", none, false, false, none, none⟩).events =
      [Event.dbWrite "user" "Tell me about movies", Event.providerCall Provider.gemini,
       Event.dbWrite "bot" "MOVIE_CHAT"] ∧
    (handler ⟨some "k", none, none⟩ ⟨.ok "MOVIE_CHAT", .err, .err⟩ false .success .success
        ⟨"POST", some "Tell me about movies", none, false, false, none, none⟩).body =
      .jsonSuccess "MOVIE_CHAT" 0.85 "hinglish" "health" ∧
    "MOVIE_CHAT" ≠ offTopicRedirectMessage ∧
    "MOVIE_CHAT" ≠ getLocalizedRedirectMessage "hinglish" := by
  have hconf : jsOrNum (0.85 : ℚ) 0.75 = 0.85 := by
    rw [jsOrNum, if_neg (by norm_num : ¬ (0.85 : ℚ) = 0)]
  have hb : (handler ⟨some "k", none, none⟩ ⟨.ok "MOVIE_CHAT", .err, .err⟩ false .success .success
      ⟨"POST", some "Tell me about movies", none, false, false, none, none⟩).body =
      .jsonSuccess "MOVIE_CHAT" (jsOrNum 0.85 0.75) "hinglish" "health" := rfl
  refine ⟨rfl, by decide, ?_, by decide, by decide⟩
  rw [hb, hconf]

/-- C9: within one valid request the user-turn store is issued before the
provider attempts and the bot-turn store after them; the storage helper
swallows both reported insert errors and thrown exceptions, returning
null instead of raising; and the handler's response is identical whatever
the persistence layer does. -/
theorem persistence_ordering_and_independence (env : Env) (oracle : ProviderOracle)
    (a b : Bool) (dU dB dU2 dB2 : DbInsertResult) (req : Request) (m : String)
    (hm : req.method = "POST") (hq : jsOrStr req.query req.message = some m)
    (ht : jsTruthy m = true) (htrim : (jsTrim m != "") = true)
    (avail : Bool) (uid msg mt : String) (vi vo : Bool) (cat : String) (conf : ℚ) :
    (handler env oracle a dU dB req).events =
      Event.dbWrite "user" m ::
        ((processHealthQueryWithAI env oracle m
            (req.detectedLanguage.getD "hinglish")).attempts.map Event.providerCall ++
          [Event.dbWrite "bot"
            (processHealthQueryWithAI env oracle m
              (req.detectedLanguage.getD "hinglish")).message]) ∧
    handler env oracle a dU dB req = handler env oracle b dU2 dB2 req ∧
    storeChatMessage avail .dbError uid msg mt vi vo cat conf = none ∧
    storeChatMessage avail .exn uid msg mt vi vo cat conf = none := by
  refine ⟨?_, ?_, ?_, ?_⟩
  · rw [handler_valid_eq env oracle a dU dB req m hm hq ht htrim]
  · rfl
  · cases avail <;> rfl
  · cases avail <;> rfl

/-- Witness for C9: a concrete valid request, evaluated against a
succeeding and a failing persistence layer. -/
theorem persistence_ordering_and_independence_witness :
    (handler ⟨none, none, none⟩ ⟨.err, .err, .err⟩ false .success .success
        ⟨"POST", some "fever", none, false, false, none, none⟩).events =
      Event.dbWrite "user" "fever" ::
        ((processHealthQueryWithAI ⟨none, none, none⟩ ⟨.err, .err, .err⟩
            "fever" "hinglish").attempts.map Event.providerCall ++
          [Event.dbWrite "bot"
            (processHealthQueryWithAI ⟨none, none, none⟩ ⟨.err, .err, .err⟩
              "fever" "hinglish").message]) ∧
    handler ⟨none, none, none⟩ ⟨.err, .err, .err⟩ false .success .success
        ⟨"POST", some "fever", none, false, false, none, none⟩ =
      handler ⟨none, none, none⟩ ⟨.err, .err, .err⟩ true .dbError .exn
        ⟨"POST", some "fever", none, false, false, none, none⟩ ∧
    storeChatMessage true .dbError "anonymous" "fever" "user" false false "health" 0.5 = none ∧
    storeChatMessage true .exn "anonymous" "fever" "user" false false "health" 0.5 = none :=
  persistence_ordering_and_independence ⟨none, none, none⟩ ⟨.err, .err, .err⟩ false true
    .success .success .dbError .exn
    ⟨"POST", some "fever", none, false, false, none, none⟩ "fever"
    rfl (by decide) (by decide) (by decide) true "anonymous" "fever" "user" false false "health" 0.5

/-- C7: evaluating the rural Fallback Responder: as written, it raises
`ReferenceError: language is not defined` on every input — also on the
fever query "बुखार" — because its body reads the identifier `language`
that its parameter list does not declare; run with `language` bound the
way every caller passes it, the same body returns the fever-specific
canned text with the emergency-disclaimer suffix for "बुखार", and the
language-selected static default (hinglish for unrecognized tags) when no
condition keyword matches. -/
theorem rural_fallback_raises_reference_error :
    generateRuralFallbackResponse "बुखार" = .error (.referenceError "language") ∧
    generateRuralFallbackResponse "कुछ और बताओ" = .error (.referenceError "language") ∧
    generateRuralFallbackResponseIntended "बुखार" "hindi" =
      .ok ⟨ruralFeverText ++ emergencySuffix, 0.70, "health", "hindi"⟩ ∧
    generateRuralFallbackResponseIntended "कुछ और बताओ" "hindi" =
      .ok ⟨ruralDefaultFor "hindi", 0.60, "health", "hindi"⟩ ∧
    ruralDefaultFor "spanish" = ruralDefaultFor "hinglish" :=
  ⟨rfl, rfl, rfl, rfl, rfl⟩
